import Mathlib

/-!
Shallow embedding of the CodeQL tools bundle acquisition pipeline
(src/tools-download.ts) and verification of its specification.

The pipeline downloads a compressed tool bundle from a URL, either by
streaming the HTTP response straight into the extractor (zstd on linux)
or by downloading to a temporary file first and extracting afterwards,
with a single fallback from the streaming strategy to the buffered one.

External effects (HTTP responses, clock readings, the proxy primitive,
the extractor and download utilities, uuid generation, cleanup success)
are supplied by an explicit environment record, so one run of the
orchestrator is a pure function from its arguments and the environment
to a result together with an instrumentation trace (logs, call counts,
issued requests).
-/

set_option maxRecDepth 100000

deriving instance DecidableEq for Except

namespace ToolsDownload

/-- Compression methods for the bundle archive, derived from the URL suffix. -/
inductive CompressionMethod
  | gzip
  | zstd
deriving DecidableEq, Repr

/-- Errors that terminate a run of downloadAndExtract: an unrecognized
archive format from the classifier, or any thrown error from the buffered
download or extraction (streaming errors are caught and never escape). -/
inductive AcqError
  | unrecognizedFormat (msg : String)
  | thrown (msg : String)
deriving DecidableEq, Repr

/-- JavaScript String.prototype.endsWith, modelled on the character lists. -/
def strEndsWith (s suf : String) : Bool := List.isSuffixOf suf.data s.data

/-- Modelled from the spec: the Compression Classifier tar.inferCompressionMethod
lives in src/tar.ts, which is not among the provided sources. Spec 4.1: a pure
function mapping a URL suffix to its compression method, failing fast with an
UnrecognizedFormat error for any URL whose suffix does not map to a known method. -/
def inferCompressionMethod (url : String) : Except AcqError CompressionMethod :=
  if strEndsWith url ".tar.gz" then Except.ok CompressionMethod.gzip
  else if strEndsWith url ".tar.zst" then Except.ok CompressionMethod.zstd
  else Except.error (AcqError.unrecognizedFormat ("Unrecognized archive format for URL " ++ url))

/-- Modelled from the spec: tar.TarVersion from src/tar.ts (not among the provided
sources). Only its presence or absence matters here. -/
structure TarVersion where
  name : String
  version : String
deriving DecidableEq, Repr

/-- A log line emitted through the logger or through core.warning. -/
inductive LogEvent
  | info (msg : String)
  | warning (msg : String)
deriving DecidableEq, Repr

/-- JavaScript Math.round on the rationals: the floor of x + 1/2. -/
def mathRound (x : ℚ) : ℤ := Int.floor (x + 1/2)

/-- Association-list lookup for HTTP header maps: the first binding of the key wins. -/
def hLookup : List (String × String) → String → Option String
  | [], _ => none
  | (k, v) :: rest, key => if k = key then some v else hLookup rest key

/-- JavaScript Object.assign restricted to string-valued maps: under hLookup,
every binding of the second map wins over the bindings of the first. -/
def objectAssign (a b : List (String × String)) : List (String × String) := b ++ a

/-- The optional authorization header contributed at line 194 of
tools-download.ts: a singleton map when authorization is present, empty otherwise. -/
def authHeaderList : Option String → List (String × String)
  | some a => [("authorization", a)]
  | none => []

/-- Header construction of downloadAndExtractZstdWithStreaming, lines 192-196:
Object.assign of the fixed User-Agent, the optional authorization header, and
the caller-supplied headers, later sources taking precedence. -/
def buildStreamingHeaders (authorization : Option String)
    (headers : List (String × String)) : List (String × String) :=
  objectAssign (objectAssign [("User-Agent", "CodeQL Action")] (authHeaderList authorization))
    headers

/-- Mirrors adjustUrlByProxy, lines 226-229: getProxyUrl is an external
network-configuration primitive, so its answer for the given URL is supplied
by the environment; the function returns it unchanged (toString of the URL). -/
def adjustUrlByProxy (proxyUrl : Option String) : Option String := proxyUrl

/-- JavaScript String.prototype.startsWith, modelled on the character lists. -/
def strStartsWith (s pre : String) : Bool := List.isPrefixOf pre.data s.data

/-- The allow-listed repositories of sanitizeUrlForStatusReport, line 218. -/
def trustedReleaseRepos : List String :=
  ["github/codeql-action", "dsp-testing/codeql-cli-nightlies"]

/-- Whether the URL begins with one of the trusted release-download locations:
the .some(...) test of sanitizeUrlForStatusReport, lines 218-220. -/
def isTrustedUrl (url : String) : Bool :=
  trustedReleaseRepos.any
    (fun repo => strStartsWith url ("https://github.com/" ++ repo ++ "/releases/download/"))

/-- Mirrors sanitizeUrlForStatusReport, lines 217-223: the URL itself when it
begins with a trusted release-download location, the fixed placeholder otherwise. -/
def sanitizeUrlForStatusReport (url : String) : String :=
  if isTrustedUrl url then url else "sanitized-value"

/-- The duration fields shared by both variants of ToolsDownloadDurations,
lines 24-29 and 47-52: download and extraction durations are Options because
the streamed variant deliberately leaves them absent. -/
structure ToolsDownloadDurations where
  combinedDurationMs : ℤ
  downloadDurationMs : Option ℤ
  extractionDurationMs : Option ℤ
  streamExtraction : Bool
deriving DecidableEq, Repr

/-- Mirrors makeDownloadFirstToolsDownloadDurations, lines 31-41. -/
def makeDownloadFirstToolsDownloadDurations (downloadDurationMs extractionDurationMs : ℤ) :
    ToolsDownloadDurations :=
  { combinedDurationMs := downloadDurationMs + extractionDurationMs
    downloadDurationMs := some downloadDurationMs
    extractionDurationMs := some extractionDurationMs
    streamExtraction := false }

/-- Mirrors makeStreamedToolsDownloadDurations, lines 54-63. -/
def makeStreamedToolsDownloadDurations (combinedDurationMs : ℤ) : ToolsDownloadDurations :=
  { combinedDurationMs := combinedDurationMs
    downloadDurationMs := none
    extractionDurationMs := none
    streamExtraction := true }

/-- Mirrors ToolsDownloadStatusReport, lines 69-73: the identification fields
together with the spread fields of a ToolsDownloadDurations value. -/
structure ToolsDownloadStatusReport where
  compressionMethod : CompressionMethod
  toolsUrl : String
  zstdFailureReason : Option String
  combinedDurationMs : ℤ
  downloadDurationMs : Option ℤ
  extractionDurationMs : Option ℤ
  streamExtraction : Bool
deriving DecidableEq, Repr

/-- The object-spread ...durations used when assembling a status report at
lines 116-120 and 171-178. -/
def spreadDurations (compressionMethod : CompressionMethod) (toolsUrl : String)
    (zstdFailureReason : Option String) (d : ToolsDownloadDurations) :
    ToolsDownloadStatusReport :=
  { compressionMethod := compressionMethod
    toolsUrl := toolsUrl
    zstdFailureReason := zstdFailureReason
    combinedDurationMs := d.combinedDurationMs
    downloadDurationMs := d.downloadDurationMs
    extractionDurationMs := d.extractionDurationMs
    streamExtraction := d.streamExtraction }

/-- The successful result of downloadAndExtract, lines 82-85. -/
structure DownloadResult where
  extractedBundlePath : String
  statusReport : ToolsDownloadStatusReport
deriving DecidableEq, Repr

/-- The ambient effects consumed by one run of downloadAndExtract: the
platform probe, the proxy primitive's answer, the HTTP status and extractor
outcome of the streaming attempt, elapsed wall-clock time per phase (in
milliseconds, before rounding), the generated uuid, the outcomes of the
buffered download, the buffered extraction, and the archive cleanup. -/
structure Env where
  platform : String
  proxyUrl : Option String
  streamStatusCode : Nat
  streamExtractResult : Except String String
  streamElapsed : ℚ
  uuid : String
  downloadResult : Except String String
  downloadElapsed : ℚ
  extractResult : Except String String
  extractElapsed : ℚ
  cleanupOk : Bool

/-- The HTTP request issued by the streaming strategy: connection target and headers. -/
structure StreamRequest where
  url : String
  headers : List (String × String)
deriving DecidableEq, Repr

/-- The observable outcome of one call of downloadAndExtractZstdWithStreaming:
the result (extracted path, or the thrown error message), the request it
issued, and the tarVersion value it received. The TypeScript signature at
line 186 declares tarVersion as non-optional, but types are erased at runtime
and the caller forwards a possibly-undefined value through a non-null
assertion, so the runtime argument is modelled as an Option. -/
structure StreamOutcome where
  result : Except String String
  request : StreamRequest
  tarVersionArg : Option TarVersion
deriving DecidableEq, Repr

/-- Mirrors downloadAndExtractZstdWithStreaming, lines 182-215: resolve the
proxy, merge the headers, issue the request; a non-200 status throws, and
otherwise the response stream is handed to tar.extractTarZst, whose outcome
the environment supplies. -/
def downloadAndExtractZstdWithStreaming (codeqlURL : String) (authorization : Option String)
    (headers : List (String × String)) (tarVersion : Option TarVersion) (env : Env) :
    StreamOutcome :=
  let downloadUrl := (adjustUrlByProxy env.proxyUrl).getD codeqlURL
  let mergedHeaders := buildStreamingHeaders authorization headers
  let request : StreamRequest := { url := downloadUrl, headers := mergedHeaders }
  if env.streamStatusCode = 200 then
    { result := env.streamExtractResult, request := request, tarVersionArg := tarVersion }
  else
    { result := Except.error
        ("Failed to download CodeQL bundle from " ++ codeqlURL ++
          ". HTTP status code: " ++ toString env.streamStatusCode ++ ".")
      request := request
      tarVersionArg := tarVersion }

/-- Modelled from the spec: util.cleanUpGlob lives in src/util.ts, which is not
among the provided sources. Spec 7: a failure to delete the temporary archive
is logged as a warning and never escalated to fatal; nothing is logged on
success. The returned list is the log lines it emits. -/
def cleanUpGlob (ok : Bool) : List LogEvent :=
  if ok then [] else [LogEvent.warning "Failed to clean up CodeQL bundle archive."]

/-- The observable outcome of the buffered phase: result, the log lines it
emitted, how often cleanup ran, the temporary destination path it chose, and
the tarVersion it passed to tar.extract. -/
structure BufferedOutcome where
  result : Except AcqError DownloadResult
  logs : List LogEvent
  cleanupCalls : Nat
  dest : String
  extractTarVersionArg : Option TarVersion

/-- The buffered acquisition phase of downloadAndExtract, lines 130-179:
download the bundle to a fresh temporary path, extract it, delete the archive
in a finally block regardless of the extraction outcome, and assemble the
download-first status report on success. A download or extraction error
propagates as fatal; a cleanup failure is only logged. -/
def runBuffered (codeqlURL : String) (compressionMethod : CompressionMethod)
    (tarVersion : Option TarVersion) (tempDir : String) (env : Env) : BufferedOutcome :=
  let dest := tempDir ++ "/" ++ env.uuid
  match env.downloadResult with
  | Except.error msg =>
      { result := Except.error (AcqError.thrown msg)
        logs := []
        cleanupCalls := 0
        dest := dest
        extractTarVersionArg := none }
  | Except.ok archivedBundlePath =>
      let downloadDurationMs := mathRound env.downloadElapsed
      let headLogs :=
        [LogEvent.info ("Finished downloading CodeQL bundle to " ++ archivedBundlePath ++ "."),
         LogEvent.info "Extracting CodeQL bundle."]
      match env.extractResult with
      | Except.error msg =>
          { result := Except.error (AcqError.thrown msg)
            logs := headLogs ++ cleanUpGlob env.cleanupOk
            cleanupCalls := 1
            dest := dest
            extractTarVersionArg := tarVersion }
      | Except.ok extractedBundlePath =>
          let extractionDurationMs := mathRound env.extractElapsed
          { result := Except.ok
              { extractedBundlePath := extractedBundlePath
                statusReport := spreadDurations compressionMethod
                  (sanitizeUrlForStatusReport codeqlURL) none
                  (makeDownloadFirstToolsDownloadDurations downloadDurationMs
                    extractionDurationMs) }
            logs := headLogs ++
              [LogEvent.info ("Finished extracting CodeQL bundle to " ++
                extractedBundlePath ++ ".")] ++ cleanUpGlob env.cleanupOk
            cleanupCalls := 1
            dest := dest
            extractTarVersionArg := tarVersion }

/-- The observable outcome of one run of downloadAndExtract: the final result
and the whole instrumentation trace. -/
structure AcqOutcome where
  result : Except AcqError DownloadResult
  logs : List LogEvent
  streamingCalls : Nat
  streamingRequests : List StreamRequest
  streamingTarVersions : List (Option TarVersion)
  bufferedCalls : Nat
  cleanupCalls : Nat

/-- Mirrors downloadAndExtract, lines 75-180: classify the compression method
(any classifier error propagates before either strategy runs); when the method
is zstd and the platform is linux, attempt the streaming strategy, returning
its streamed report on success and falling through to the buffered phase with
two warnings on any failure; otherwise run the buffered phase directly. -/
def downloadAndExtract (codeqlURL : String) (authorization : Option String)
    (headers : List (String × String)) (tarVersion : Option TarVersion)
    (tempDir : String) (env : Env) : AcqOutcome :=
  let introLogs :=
    [LogEvent.info ("Downloading CodeQL tools from " ++ codeqlURL ++ " . This may take a while.")]
  match inferCompressionMethod codeqlURL with
  | Except.error e =>
      { result := Except.error e
        logs := introLogs
        streamingCalls := 0
        streamingRequests := []
        streamingTarVersions := []
        bufferedCalls := 0
        cleanupCalls := 0 }
  | Except.ok compressionMethod =>
      if compressionMethod = CompressionMethod.zstd ∧ env.platform = "linux" then
        let so := downloadAndExtractZstdWithStreaming codeqlURL authorization headers
          tarVersion env
        match so.result with
        | Except.ok extractedBundlePath =>
            let combinedDurationMs := mathRound env.streamElapsed
            { result := Except.ok
                { extractedBundlePath := extractedBundlePath
                  statusReport := spreadDurations compressionMethod
                    (sanitizeUrlForStatusReport codeqlURL) none
                    (makeStreamedToolsDownloadDurations combinedDurationMs) }
              logs := introLogs ++
                [LogEvent.info "Streaming the extraction of the CodeQL bundle.",
                 LogEvent.info ("Finished downloading and extracting CodeQL bundle to " ++
                   extractedBundlePath ++ ".")]
              streamingCalls := 1
              streamingRequests := [so.request]
              streamingTarVersions := [so.tarVersionArg]
              bufferedCalls := 0
              cleanupCalls := 0 }
        | Except.error msg =>
            let b := runBuffered codeqlURL compressionMethod tarVersion tempDir env
            { result := b.result
              logs := introLogs ++
                [LogEvent.info "Streaming the extraction of the CodeQL bundle.",
                 LogEvent.warning
                   "Failed to download and extract CodeQL bundle using streaming. Falling back to downloading the bundle before extracting.",
                 LogEvent.warning msg] ++ b.logs
              streamingCalls := 1
              streamingRequests := [so.request]
              streamingTarVersions := [so.tarVersionArg]
              bufferedCalls := 1
              cleanupCalls := b.cleanupCalls }
      else
        let b := runBuffered codeqlURL compressionMethod tarVersion tempDir env
        { result := b.result
          logs := introLogs ++ b.logs
          streamingCalls := 0
          streamingRequests := []
          streamingTarVersions := []
          bufferedCalls := 1
          cleanupCalls := b.cleanupCalls }

/-- Concrete sample inputs used by the witnesses below: a trusted release URL
with the zstd suffix. -/
def urlTrustedZst : String :=
  "https://github.com/github/codeql-action/releases/download/codeql-bundle-v2/codeql-bundle.tar.zst"

/-- Sample environment in which the streaming attempt fails with HTTP 500 and
the buffered phase succeeds. -/
def envStreamFail : Env :=
  { platform := "linux", proxyUrl := none, streamStatusCode := 500
    streamExtractResult := Except.ok "streamed", streamElapsed := 4
    uuid := "uuid-1", downloadResult := Except.ok "/tmp/uuid-1"
    downloadElapsed := 6, extractResult := Except.ok "/tools/codeql", extractElapsed := 8
    cleanupOk := true }

/-- Sample environment in which the streaming attempt succeeds. -/
def envStreamOk : Env :=
  { platform := "linux", proxyUrl := none, streamStatusCode := 200
    streamExtractResult := Except.ok "/tools/codeql", streamElapsed := 4
    uuid := "uuid-1", downloadResult := Except.ok "/tmp/uuid-1"
    downloadElapsed := 6, extractResult := Except.ok "/tools/codeql", extractElapsed := 8
    cleanupOk := true }

/-- Sample environment on a non-linux platform where the buffered phase
succeeds but cleanup of the archive fails. -/
def envNoStream : Env :=
  { platform := "darwin", proxyUrl := none, streamStatusCode := 200
    streamExtractResult := Except.ok "streamed", streamElapsed := 4
    uuid := "uuid-2", downloadResult := Except.ok "/tmp/uuid-2"
    downloadElapsed := 6, extractResult := Except.ok "/tools/codeql", extractElapsed := 8
    cleanupOk := false }

/-- The error message thrown for a 500 response on the sample URL. -/
def failMsg500 : String :=
  "Failed to download CodeQL bundle from " ++ urlTrustedZst ++ ". HTTP status code: 500."

/-- Lookup over an Object.assign merge: a binding of the second map wins, and a
key absent from the second map falls through to the first. -/
theorem hLookup_objectAssign (a b : List (String × String)) (k : String) :
    hLookup (objectAssign a b) k = Option.or (hLookup b k) (hLookup a k) := by
  induction b with
  | nil => simp [objectAssign, hLookup]
  | cons hd tl ih =>
      obtain ⟨k1, v1⟩ := hd
      by_cases h : k1 = k
      · simp [objectAssign, hLookup, h]
      · simpa [objectAssign, hLookup, h] using ih

/-- Every successful result of the buffered phase carries the download-first
status report assembled from the per-phase rounded durations, with no
zstdFailureReason. -/
theorem runBuffered_ok_report (codeqlURL : String) (compressionMethod : CompressionMethod)
    (tarVersion : Option TarVersion) (tempDir : String) (env : Env) (r : DownloadResult)
    (h : (runBuffered codeqlURL compressionMethod tarVersion tempDir env).result
      = Except.ok r) :
    r.statusReport = spreadDurations compressionMethod (sanitizeUrlForStatusReport codeqlURL)
      none (makeDownloadFirstToolsDownloadDurations (mathRound env.downloadElapsed)
        (mathRound env.extractElapsed)) := by
  unfold runBuffered at h
  cases hd : env.downloadResult with
  | error msg => rw [hd] at h; simp at h
  | ok p =>
      rw [hd] at h
      cases he : env.extractResult with
      | error msg => rw [he] at h; simp at h
      | ok q =>
          rw [he] at h
          simp only [Except.ok.injEq] at h
          rw [← h]

/-- C4: for every acquisition request the streaming strategy is invoked exactly
once when the classified compression method is zstd and the platform is linux,
and zero times when either condition fails. -/
theorem c4_streaming_iff_eligible (codeqlURL : String) (authorization : Option String)
    (headers : List (String × String)) (tarVersion : Option TarVersion)
    (tempDir : String) (env : Env) :
    (downloadAndExtract codeqlURL authorization headers tarVersion tempDir env).streamingCalls
      = if inferCompressionMethod codeqlURL = Except.ok CompressionMethod.zstd
            ∧ env.platform = "linux"
        then 1 else 0 := by
  cases hc : inferCompressionMethod codeqlURL with
  | error e => simp [downloadAndExtract, hc]
  | ok m =>
      by_cases hm : m = CompressionMethod.zstd ∧ env.platform = "linux"
      · obtain ⟨hm1, hm2⟩ := hm
        subst hm1
        cases hr : (downloadAndExtractZstdWithStreaming codeqlURL authorization headers
            tarVersion env).result <;>
          simp [downloadAndExtract, hc, hm2, hr]
      · simp [downloadAndExtract, hc, hm]

/-- C7: when the classifier rejects the URL suffix, downloadAndExtract
terminates immediately with that error: no streaming attempt, no buffered
attempt, and no cleanup happens. -/
theorem c7_unrecognized_format_is_fatal (codeqlURL : String) (authorization : Option String)
    (headers : List (String × String)) (tarVersion : Option TarVersion)
    (tempDir : String) (env : Env) (e : AcqError)
    (h : inferCompressionMethod codeqlURL = Except.error e) :
    (downloadAndExtract codeqlURL authorization headers tarVersion tempDir env).result
        = Except.error e
  ∧ (downloadAndExtract codeqlURL authorization headers tarVersion tempDir env).streamingCalls = 0
  ∧ (downloadAndExtract codeqlURL authorization headers tarVersion tempDir env).bufferedCalls = 0
  ∧ (downloadAndExtract codeqlURL authorization headers tarVersion tempDir env).cleanupCalls = 0 := by
  unfold downloadAndExtract
  rw [h]
  exact ⟨rfl, rfl, rfl, rfl⟩

/-- Witness for C7 at a URL with an unrecognized suffix. -/
theorem c7_unrecognized_format_is_fatal_witness :
    inferCompressionMethod "https://example.com/bundle.zip"
        = Except.error (AcqError.unrecognizedFormat
          "Unrecognized archive format for URL https://example.com/bundle.zip")
  ∧ ((downloadAndExtract "https://example.com/bundle.zip" none [] none "/tmp" envStreamFail).result
        = Except.error (AcqError.unrecognizedFormat
          "Unrecognized archive format for URL https://example.com/bundle.zip")
    ∧ (downloadAndExtract "https://example.com/bundle.zip" none [] none "/tmp"
        envStreamFail).streamingCalls = 0
    ∧ (downloadAndExtract "https://example.com/bundle.zip" none [] none "/tmp"
        envStreamFail).bufferedCalls = 0
    ∧ (downloadAndExtract "https://example.com/bundle.zip" none [] none "/tmp"
        envStreamFail).cleanupCalls = 0) :=
  ⟨by decide, c7_unrecognized_format_is_fatal "https://example.com/bundle.zip" none [] none
    "/tmp" envStreamFail _ (by decide)⟩

/-- C1: when the eligible streaming attempt fails, downloadAndExtract logs a
warning holding the failure reason, attempts streaming exactly once, invokes
the buffered phase exactly once, and its final result (extracted path, status
report and durations) is exactly what the buffered phase alone produces on the
same request. -/
theorem c1_streaming_failure_falls_back (codeqlURL : String) (authorization : Option String)
    (headers : List (String × String)) (tarVersion : Option TarVersion)
    (tempDir : String) (env : Env) (msg : String)
    (hzstd : inferCompressionMethod codeqlURL = Except.ok CompressionMethod.zstd)
    (hlinux : env.platform = "linux")
    (hfail : (downloadAndExtractZstdWithStreaming codeqlURL authorization headers tarVersion
        env).result = Except.error msg) :
    (downloadAndExtract codeqlURL authorization headers tarVersion tempDir env).streamingCalls = 1
  ∧ (downloadAndExtract codeqlURL authorization headers tarVersion tempDir env).bufferedCalls = 1
  ∧ LogEvent.warning msg
      ∈ (downloadAndExtract codeqlURL authorization headers tarVersion tempDir env).logs
  ∧ (downloadAndExtract codeqlURL authorization headers tarVersion tempDir env).result
      = (runBuffered codeqlURL CompressionMethod.zstd tarVersion tempDir env).result
  ∧ (downloadAndExtract codeqlURL authorization headers tarVersion tempDir env).cleanupCalls
      = (runBuffered codeqlURL CompressionMethod.zstd tarVersion tempDir env).cleanupCalls := by
  simp [downloadAndExtract, hzstd, hlinux, hfail]

/-- Witness for C1: a 500 response on a trusted zstd URL on linux falls back to
the buffered phase. -/
theorem c1_streaming_failure_falls_back_witness :
    (inferCompressionMethod urlTrustedZst = Except.ok CompressionMethod.zstd
      ∧ envStreamFail.platform = "linux"
      ∧ (downloadAndExtractZstdWithStreaming urlTrustedZst none [] none envStreamFail).result
          = Except.error failMsg500)
  ∧ ((downloadAndExtract urlTrustedZst none [] none "/tmp" envStreamFail).streamingCalls = 1
      ∧ (downloadAndExtract urlTrustedZst none [] none "/tmp" envStreamFail).bufferedCalls = 1
      ∧ LogEvent.warning failMsg500
          ∈ (downloadAndExtract urlTrustedZst none [] none "/tmp" envStreamFail).logs
      ∧ (downloadAndExtract urlTrustedZst none [] none "/tmp" envStreamFail).result
          = (runBuffered urlTrustedZst CompressionMethod.zstd none "/tmp" envStreamFail).result
      ∧ (downloadAndExtract urlTrustedZst none [] none "/tmp" envStreamFail).cleanupCalls
          = (runBuffered urlTrustedZst CompressionMethod.zstd none "/tmp"
              envStreamFail).cleanupCalls) :=
  ⟨⟨by decide, rfl, by decide⟩,
    c1_streaming_failure_falls_back urlTrustedZst none [] none "/tmp" envStreamFail failMsg500
      (by decide) rfl (by decide)⟩

/-- C2 counterexample: on this request a streaming attempt is made and fails
with HTTP 500, yet the status report of the final (buffered) result carries no
zstdFailureReason, refuting the claim that the field then holds the failure
reason. -/
theorem c2_counterexample :
    (downloadAndExtract urlTrustedZst none [] none "/tmp" envStreamFail).streamingCalls = 1
  ∧ (downloadAndExtractZstdWithStreaming urlTrustedZst none [] none envStreamFail).result
      = Except.error failMsg500
  ∧ (match (downloadAndExtract urlTrustedZst none [] none "/tmp" envStreamFail).result with
      | Except.ok r => some r.statusReport.zstdFailureReason
      | Except.error _ => none) = some none :=
  ⟨by decide, by decide, by decide⟩

/-- C2 (amended): the zstdFailureReason field is never populated: every
successful result of downloadAndExtract carries zstdFailureReason = none, even
when a streaming attempt was made and failed before falling back (the failure
reason is only logged as a warning). -/
theorem c2_zstd_failure_reason_always_absent (codeqlURL : String)
    (authorization : Option String) (headers : List (String × String))
    (tarVersion : Option TarVersion) (tempDir : String) (env : Env) (r : DownloadResult)
    (h : (downloadAndExtract codeqlURL authorization headers tarVersion tempDir env).result
      = Except.ok r) :
    r.statusReport.zstdFailureReason = none := by
  unfold downloadAndExtract at h
  cases hc : inferCompressionMethod codeqlURL with
  | error e => simp only [hc] at h; simp at h
  | ok m =>
      simp only [hc] at h
      by_cases hm : m = CompressionMethod.zstd ∧ env.platform = "linux"
      · rw [if_pos hm] at h
        cases hr : (downloadAndExtractZstdWithStreaming codeqlURL authorization headers
            tarVersion env).result with
        | ok p =>
            rw [hr] at h
            simp only [Except.ok.injEq] at h
            rw [← h]
            rfl
        | error msg =>
            rw [hr] at h
            simp only at h
            have hrep := runBuffered_ok_report codeqlURL m tarVersion tempDir env r h
            rw [hrep]
            rfl
      · rw [if_neg hm] at h
        simp only at h
        have hrep := runBuffered_ok_report codeqlURL m tarVersion tempDir env r h
        rw [hrep]
        rfl

/-- Witness for C2 (amended) on a buffered run after a failed streaming attempt. -/
theorem c2_zstd_failure_reason_always_absent_witness :
    ((downloadAndExtract urlTrustedZst none [] none "/tmp" envStreamFail).result
        = Except.ok
          { extractedBundlePath := "/tools/codeql"
            statusReport := spreadDurations CompressionMethod.zstd
              (sanitizeUrlForStatusReport urlTrustedZst) none
              (makeDownloadFirstToolsDownloadDurations (mathRound 6) (mathRound 8)) })
  ∧ ({ extractedBundlePath := "/tools/codeql"
       statusReport := spreadDurations CompressionMethod.zstd
         (sanitizeUrlForStatusReport urlTrustedZst) none
         (makeDownloadFirstToolsDownloadDurations (mathRound 6) (mathRound 8))
       : DownloadResult }).statusReport.zstdFailureReason = none :=
  ⟨rfl, c2_zstd_failure_reason_always_absent urlTrustedZst none [] none "/tmp" envStreamFail
    _ rfl⟩

/-- C3: every successful acquisition that ran the buffered phase reports
streamExtraction = false, the two phase durations each rounded to milliseconds
once, and a combined duration that is exactly their sum with no further
rounding. -/
theorem c3_buffered_durations (codeqlURL : String) (authorization : Option String)
    (headers : List (String × String)) (tarVersion : Option TarVersion)
    (tempDir : String) (env : Env) (r : DownloadResult)
    (hbuf : (downloadAndExtract codeqlURL authorization headers tarVersion tempDir
        env).bufferedCalls = 1)
    (hok : (downloadAndExtract codeqlURL authorization headers tarVersion tempDir env).result
      = Except.ok r) :
    r.statusReport.streamExtraction = false
  ∧ r.statusReport.downloadDurationMs = some (mathRound env.downloadElapsed)
  ∧ r.statusReport.extractionDurationMs = some (mathRound env.extractElapsed)
  ∧ r.statusReport.combinedDurationMs
      = mathRound env.downloadElapsed + mathRound env.extractElapsed := by
  unfold downloadAndExtract at hbuf hok
  cases hc : inferCompressionMethod codeqlURL with
  | error e => simp only [hc] at hok; simp at hok
  | ok m =>
      simp only [hc] at hbuf hok
      by_cases hm : m = CompressionMethod.zstd ∧ env.platform = "linux"
      · rw [if_pos hm] at hbuf hok
        cases hr : (downloadAndExtractZstdWithStreaming codeqlURL authorization headers
            tarVersion env).result with
        | ok p => rw [hr] at hbuf; simp at hbuf
        | error msg =>
            rw [hr] at hok
            simp only at hok
            have hrep := runBuffered_ok_report codeqlURL m tarVersion tempDir env r hok
            rw [hrep]
            exact ⟨rfl, rfl, rfl, rfl⟩
      · rw [if_neg hm] at hok
        simp only at hok
        have hrep := runBuffered_ok_report codeqlURL m tarVersion tempDir env r hok
        rw [hrep]
        exact ⟨rfl, rfl, rfl, rfl⟩

/-- Witness for C3 on a gzip bundle acquired on darwin (buffered path, no
streaming). -/
theorem c3_buffered_durations_witness :
    ((downloadAndExtract "https://example.com/bundle.tar.gz" none [] none "/tmp"
        envNoStream).bufferedCalls = 1
      ∧ (downloadAndExtract "https://example.com/bundle.tar.gz" none [] none "/tmp"
          envNoStream).result
        = Except.ok
          { extractedBundlePath := "/tools/codeql"
            statusReport := spreadDurations CompressionMethod.gzip
              (sanitizeUrlForStatusReport "https://example.com/bundle.tar.gz") none
              (makeDownloadFirstToolsDownloadDurations (mathRound 6) (mathRound 8)) })
  ∧ (({ extractedBundlePath := "/tools/codeql"
        statusReport := spreadDurations CompressionMethod.gzip
          (sanitizeUrlForStatusReport "https://example.com/bundle.tar.gz") none
          (makeDownloadFirstToolsDownloadDurations (mathRound 6) (mathRound 8))
        : DownloadResult }).statusReport.streamExtraction = false
      ∧ ({ extractedBundlePath := "/tools/codeql"
           statusReport := spreadDurations CompressionMethod.gzip
             (sanitizeUrlForStatusReport "https://example.com/bundle.tar.gz") none
             (makeDownloadFirstToolsDownloadDurations (mathRound 6) (mathRound 8))
           : DownloadResult }).statusReport.downloadDurationMs
          = some (mathRound envNoStream.downloadElapsed)
      ∧ ({ extractedBundlePath := "/tools/codeql"
           statusReport := spreadDurations CompressionMethod.gzip
             (sanitizeUrlForStatusReport "https://example.com/bundle.tar.gz") none
             (makeDownloadFirstToolsDownloadDurations (mathRound 6) (mathRound 8))
           : DownloadResult }).statusReport.extractionDurationMs
          = some (mathRound envNoStream.extractElapsed)
      ∧ ({ extractedBundlePath := "/tools/codeql"
           statusReport := spreadDurations CompressionMethod.gzip
             (sanitizeUrlForStatusReport "https://example.com/bundle.tar.gz") none
             (makeDownloadFirstToolsDownloadDurations (mathRound 6) (mathRound 8))
           : DownloadResult }).statusReport.combinedDurationMs
          = mathRound envNoStream.downloadElapsed + mathRound envNoStream.extractElapsed) :=
  ⟨⟨rfl, rfl⟩, c3_buffered_durations "https://example.com/bundle.tar.gz" none [] none "/tmp"
    envNoStream _ rfl rfl⟩

/-- C5 counterexample: the fixed placeholder string itself is returned
unchanged by the sanitizer although it does not begin with any trusted
prefix, refuting the only-if direction of the claim. -/
theorem c5_counterexample :
    sanitizeUrlForStatusReport "sanitized-value" = "sanitized-value"
  ∧ isTrustedUrl "sanitized-value" = false :=
  ⟨by decide, by decide⟩

/-- C5 (amended): the sanitizer returns a URL beginning with a trusted prefix
unchanged and returns the fixed placeholder for every other URL; consequently
its output equals its input exactly when the input is trusted or is itself the
placeholder string. -/
theorem c5_sanitize_characterization (url : String) :
    (isTrustedUrl url = true → sanitizeUrlForStatusReport url = url)
  ∧ (isTrustedUrl url = false → sanitizeUrlForStatusReport url = "sanitized-value")
  ∧ (sanitizeUrlForStatusReport url = url
      ↔ (isTrustedUrl url = true ∨ url = "sanitized-value")) := by
  unfold sanitizeUrlForStatusReport
  by_cases h : isTrustedUrl url = true
  · simp [h]
  · simp only [Bool.not_eq_true] at h
    simp [h, eq_comm]

/-- Witness for C5 (amended) at a trusted URL and at an untrusted URL. -/
theorem c5_sanitize_characterization_witness :
    ((isTrustedUrl urlTrustedZst = true → sanitizeUrlForStatusReport urlTrustedZst = urlTrustedZst)
      ∧ (isTrustedUrl urlTrustedZst = false →
          sanitizeUrlForStatusReport urlTrustedZst = "sanitized-value")
      ∧ (sanitizeUrlForStatusReport urlTrustedZst = urlTrustedZst
          ↔ (isTrustedUrl urlTrustedZst = true ∨ urlTrustedZst = "sanitized-value")))
  ∧ ((isTrustedUrl "https://evil.example/bundle.tar.gz" = true →
        sanitizeUrlForStatusReport "https://evil.example/bundle.tar.gz"
          = "https://evil.example/bundle.tar.gz")
      ∧ (isTrustedUrl "https://evil.example/bundle.tar.gz" = false →
          sanitizeUrlForStatusReport "https://evil.example/bundle.tar.gz" = "sanitized-value")
      ∧ (sanitizeUrlForStatusReport "https://evil.example/bundle.tar.gz"
            = "https://evil.example/bundle.tar.gz"
          ↔ (isTrustedUrl "https://evil.example/bundle.tar.gz" = true
              ∨ "https://evil.example/bundle.tar.gz" = "sanitized-value"))) :=
  ⟨c5_sanitize_characterization urlTrustedZst,
    c5_sanitize_characterization "https://evil.example/bundle.tar.gz"⟩

/-- C6: once the buffered download has produced an archive, cleanup of the
archive runs exactly once whatever the extraction outcome; an extraction error
still propagates unchanged; a cleanup failure is logged as a warning; and the
final result never depends on whether cleanup succeeded. -/
theorem c6_cleanup_always_runs (codeqlURL : String) (compressionMethod : CompressionMethod)
    (tarVersion : Option TarVersion) (tempDir : String) (env : Env) (p : String)
    (hdl : env.downloadResult = Except.ok p) :
    (runBuffered codeqlURL compressionMethod tarVersion tempDir env).cleanupCalls = 1
  ∧ (∀ m, env.extractResult = Except.error m →
      (runBuffered codeqlURL compressionMethod tarVersion tempDir env).result
        = Except.error (AcqError.thrown m))
  ∧ (env.cleanupOk = false →
      LogEvent.warning "Failed to clean up CodeQL bundle archive."
        ∈ (runBuffered codeqlURL compressionMethod tarVersion tempDir env).logs)
  ∧ (runBuffered codeqlURL compressionMethod tarVersion tempDir env).result
      = (runBuffered codeqlURL compressionMethod tarVersion tempDir
          { env with cleanupOk := true }).result := by
  cases he : env.extractResult with
  | error m => simp [runBuffered, hdl, he, cleanUpGlob]
  | ok q => simp [runBuffered, hdl, he, cleanUpGlob]

/-- Witness for C6: a buffered run whose extraction succeeds but whose cleanup
fails; the warning is logged and nothing escalates. -/
theorem c6_cleanup_always_runs_witness :
    envNoStream.downloadResult = Except.ok "/tmp/uuid-2"
  ∧ ((runBuffered "https://example.com/bundle.tar.gz" CompressionMethod.gzip none "/tmp"
        envNoStream).cleanupCalls = 1
      ∧ (∀ m, envNoStream.extractResult = Except.error m →
          (runBuffered "https://example.com/bundle.tar.gz" CompressionMethod.gzip none "/tmp"
            envNoStream).result = Except.error (AcqError.thrown m))
      ∧ (envNoStream.cleanupOk = false →
          LogEvent.warning "Failed to clean up CodeQL bundle archive."
            ∈ (runBuffered "https://example.com/bundle.tar.gz" CompressionMethod.gzip none
                "/tmp" envNoStream).logs)
      ∧ (runBuffered "https://example.com/bundle.tar.gz" CompressionMethod.gzip none "/tmp"
            envNoStream).result
          = (runBuffered "https://example.com/bundle.tar.gz" CompressionMethod.gzip none "/tmp"
              { envNoStream with cleanupOk := true }).result) :=
  ⟨rfl, c6_cleanup_always_runs "https://example.com/bundle.tar.gz" CompressionMethod.gzip none
    "/tmp" envNoStream "/tmp/uuid-2" rfl⟩

/-- The headers of the issued streaming request are always the merged header
set, whatever the environment supplies. -/
theorem streamRequest_headers (codeqlURL : String) (authorization : Option String)
    (headers : List (String × String)) (tarVersion : Option TarVersion) (env : Env) :
    (downloadAndExtractZstdWithStreaming codeqlURL authorization headers tarVersion
        env).request.headers = buildStreamingHeaders authorization headers := by
  unfold downloadAndExtractZstdWithStreaming
  split <;> rfl

/-- The streaming strategy receives exactly the tarVersion value the caller
forwarded, on every path. -/
theorem streamOutcome_tarVersionArg (codeqlURL : String) (authorization : Option String)
    (headers : List (String × String)) (tarVersion : Option TarVersion) (env : Env) :
    (downloadAndExtractZstdWithStreaming codeqlURL authorization headers tarVersion
        env).tarVersionArg = tarVersion := by
  unfold downloadAndExtractZstdWithStreaming
  split <;> rfl

/-- C8: the streaming request targets the proxy endpoint when one is resolved
and the original URL verbatim otherwise, while its headers are always the
Object.assign merge of the fixed User-Agent, the optional authorization header
and the caller-supplied headers, the caller headers winning on conflicting
keys and a missing caller key falling through to authorization and User-Agent;
the merged header set does not depend on the proxy resolution. -/
theorem c8_request_headers_and_proxy (codeqlURL : String) (authorization : Option String)
    (headers : List (String × String)) (tarVersion : Option TarVersion) (env : Env) :
    (downloadAndExtractZstdWithStreaming codeqlURL authorization headers tarVersion
        env).request.url = (adjustUrlByProxy env.proxyUrl).getD codeqlURL
  ∧ (env.proxyUrl = none →
      (downloadAndExtractZstdWithStreaming codeqlURL authorization headers tarVersion
        env).request.url = codeqlURL)
  ∧ (downloadAndExtractZstdWithStreaming codeqlURL authorization headers tarVersion
        env).request.headers = buildStreamingHeaders authorization headers
  ∧ (∀ p, (downloadAndExtractZstdWithStreaming codeqlURL authorization headers tarVersion
        { env with proxyUrl := p }).request.headers
      = (downloadAndExtractZstdWithStreaming codeqlURL authorization headers tarVersion
          env).request.headers)
  ∧ (∀ k, hLookup (buildStreamingHeaders authorization headers) k
      = Option.or (hLookup headers k)
          (hLookup (objectAssign [("User-Agent", "CodeQL Action")]
            (authHeaderList authorization)) k)) := by
  refine ⟨?_, ?_, ?_, ?_, ?_⟩
  · unfold downloadAndExtractZstdWithStreaming
    split <;> rfl
  · intro hp
    unfold downloadAndExtractZstdWithStreaming
    rw [hp]
    split <;> rfl
  · exact streamRequest_headers codeqlURL authorization headers tarVersion env
  · intro p
    exact (streamRequest_headers codeqlURL authorization headers tarVersion
        { env with proxyUrl := p }).trans
      (streamRequest_headers codeqlURL authorization headers tarVersion env).symm
  · intro k
    exact hLookup_objectAssign _ headers k

/-- Witness for C8 with an authorization token, a caller-supplied accept
header, and no proxy. -/
theorem c8_request_headers_and_proxy_witness :
    (downloadAndExtractZstdWithStreaming urlTrustedZst (some "token-abc")
        [("accept", "application/octet-stream")] none envStreamFail).request.url
      = (adjustUrlByProxy envStreamFail.proxyUrl).getD urlTrustedZst
  ∧ (envStreamFail.proxyUrl = none →
      (downloadAndExtractZstdWithStreaming urlTrustedZst (some "token-abc")
        [("accept", "application/octet-stream")] none envStreamFail).request.url = urlTrustedZst)
  ∧ (downloadAndExtractZstdWithStreaming urlTrustedZst (some "token-abc")
        [("accept", "application/octet-stream")] none envStreamFail).request.headers
      = buildStreamingHeaders (some "token-abc") [("accept", "application/octet-stream")]
  ∧ (∀ p, (downloadAndExtractZstdWithStreaming urlTrustedZst (some "token-abc")
        [("accept", "application/octet-stream")] none
        { envStreamFail with proxyUrl := p }).request.headers
      = (downloadAndExtractZstdWithStreaming urlTrustedZst (some "token-abc")
          [("accept", "application/octet-stream")] none envStreamFail).request.headers)
  ∧ (∀ k, hLookup (buildStreamingHeaders (some "token-abc")
        [("accept", "application/octet-stream")]) k
      = Option.or (hLookup [("accept", "application/octet-stream")] k)
          (hLookup (objectAssign [("User-Agent", "CodeQL Action")]
            (authHeaderList (some "token-abc"))) k)) :=
  c8_request_headers_and_proxy urlTrustedZst (some "token-abc")
    [("accept", "application/octet-stream")] none envStreamFail

/-- C9: when the eligible streaming attempt succeeds and the clock is
monotone, the returned status report has streamExtraction = true, absent
download and extraction durations, and a nonnegative combined duration. -/
theorem c9_streaming_success_report (codeqlURL : String) (authorization : Option String)
    (headers : List (String × String)) (tarVersion : Option TarVersion)
    (tempDir : String) (env : Env) (p : String)
    (hzstd : inferCompressionMethod codeqlURL = Except.ok CompressionMethod.zstd)
    (hlinux : env.platform = "linux")
    (hok : (downloadAndExtractZstdWithStreaming codeqlURL authorization headers tarVersion
        env).result = Except.ok p)
    (hclock : 0 ≤ env.streamElapsed) :
    ∃ r, (downloadAndExtract codeqlURL authorization headers tarVersion tempDir env).result
        = Except.ok r
      ∧ r.statusReport.streamExtraction = true
      ∧ r.statusReport.downloadDurationMs = none
      ∧ r.statusReport.extractionDurationMs = none
      ∧ 0 ≤ r.statusReport.combinedDurationMs := by
  refine ⟨{ extractedBundlePath := p
            statusReport := spreadDurations CompressionMethod.zstd
              (sanitizeUrlForStatusReport codeqlURL) none
              (makeStreamedToolsDownloadDurations (mathRound env.streamElapsed)) },
    ?_, rfl, rfl, rfl, ?_⟩
  · simp [downloadAndExtract, hzstd, hlinux, hok]
  · show (0 : ℤ) ≤ mathRound env.streamElapsed
    unfold mathRound
    refine Int.le_floor.mpr ?_
    push_cast
    linarith

/-- Witness for C9 on a successful streaming acquisition. -/
theorem c9_streaming_success_report_witness :
    (inferCompressionMethod urlTrustedZst = Except.ok CompressionMethod.zstd
      ∧ envStreamOk.platform = "linux"
      ∧ (downloadAndExtractZstdWithStreaming urlTrustedZst none [] none envStreamOk).result
          = Except.ok "/tools/codeql"
      ∧ 0 ≤ envStreamOk.streamElapsed)
  ∧ (∃ r, (downloadAndExtract urlTrustedZst none [] none "/tmp" envStreamOk).result
        = Except.ok r
      ∧ r.statusReport.streamExtraction = true
      ∧ r.statusReport.downloadDurationMs = none
      ∧ r.statusReport.extractionDurationMs = none
      ∧ 0 ≤ r.statusReport.combinedDurationMs) :=
  ⟨⟨by decide, rfl, by decide, by norm_num [envStreamOk]⟩,
    c9_streaming_success_report urlTrustedZst none [] none "/tmp" envStreamOk "/tools/codeql"
      (by decide) rfl (by decide) (by norm_num [envStreamOk])⟩

/-- C10: under the streaming eligibility conditions with tarVersion absent,
downloadAndExtract performs no runtime check: the streaming extractor is
invoked exactly once and receives the absent tarVersion value, violating the
non-optional parameter type declared by downloadAndExtractZstdWithStreaming. -/
theorem c10_tarversion_forwarded_unchecked (codeqlURL : String)
    (authorization : Option String) (headers : List (String × String))
    (tempDir : String) (env : Env)
    (hzstd : inferCompressionMethod codeqlURL = Except.ok CompressionMethod.zstd)
    (hlinux : env.platform = "linux") :
    (downloadAndExtract codeqlURL authorization headers none tempDir env).streamingCalls = 1
  ∧ (downloadAndExtract codeqlURL authorization headers none tempDir
      env).streamingTarVersions = [none]
  ∧ (downloadAndExtractZstdWithStreaming codeqlURL authorization headers none
      env).tarVersionArg = none := by
  refine ⟨?_, ?_, ?_⟩
  · cases hr : (downloadAndExtractZstdWithStreaming codeqlURL authorization headers none
        env).result <;> simp [downloadAndExtract, hzstd, hlinux, hr]
  · cases hr : (downloadAndExtractZstdWithStreaming codeqlURL authorization headers none
        env).result <;>
      simp [downloadAndExtract, hzstd, hlinux, hr, streamOutcome_tarVersionArg]
  · exact streamOutcome_tarVersionArg codeqlURL authorization headers none env

/-- Witness for C10 on an eligible request with tarVersion absent. -/
theorem c10_tarversion_forwarded_unchecked_witness :
    (inferCompressionMethod urlTrustedZst = Except.ok CompressionMethod.zstd
      ∧ envStreamOk.platform = "linux")
  ∧ ((downloadAndExtract urlTrustedZst none [] none "/tmp" envStreamOk).streamingCalls = 1
      ∧ (downloadAndExtract urlTrustedZst none [] none "/tmp"
          envStreamOk).streamingTarVersions = [none]
      ∧ (downloadAndExtractZstdWithStreaming urlTrustedZst none [] none
          envStreamOk).tarVersionArg = none) :=
  ⟨⟨by decide, rfl⟩,
    c10_tarversion_forwarded_unchecked urlTrustedZst none [] "/tmp" envStreamOk
      (by decide) rfl⟩

end ToolsDownload
